import Mathlib

/-!
Shallow embedding of the fraud-detection service in `src/main.py`.

Conventions of the embedding:
* Python floats are modelled as rationals `ℚ`; `np.std` takes a real square
  root, so the standard deviation and z-score live in `ℝ`.
* The MongoDB collections (`collection`, `blacklist_collection`) and the
  in-process dict `last_known_location` are explicit state (`SysState`),
  threaded through `check_fraud`.
* External library calls that the repository does not define are abstract
  parameters: `datetime.strptime` becomes a parameter
  `parseTs : String → Option DateTime` (returning `none` models the
  `ValueError` raised on a malformed timestamp), and `geopy.distance.geodesic`
  becomes a parameter `geo : Coords → Coords → ℚ` giving the distance in km.
* `numpy`'s `np.mean` / `np.std` are implemented concretely (arithmetic mean
  and population standard deviation, per the numpy defaults used here).
-/

/-- A civil date-time as produced by `datetime.strptime(ts, "%Y-%m-%d %H:%M:%S")`. -/
structure DateTime where
  year : ℕ
  month : ℕ
  day : ℕ
  hour : ℕ
  minute : ℕ
  second : ℕ
deriving DecidableEq, Repr

/-- Linearisation of a `DateTime` used to compare timestamps chronologically
(the fields of a parsed timestamp are within calendar ranges, so this key is
monotone in chronological order). -/
def DateTime.key (d : DateTime) : ℕ :=
  ((((d.year * 13 + d.month) * 32 + d.day) * 24 + d.hour) * 60 + d.minute) * 60 + d.second

/-- Geographic coordinates, `(latitude, longitude)`. -/
def Coords : Type := ℚ × ℚ
deriving DecidableEq, Repr

/-- The request body of `POST /check_fraud` (`class Transaction(BaseModel)`). -/
structure Transaction where
  transaction_id : String
  timestamp : String
  amount : ℚ
  location : String
  card_type : String
  currency : String
  recipient_account_number : String
  sender_account_number : String
deriving DecidableEq, Repr

/-- A document of the transaction collection, as inserted by `check_fraud`
(`collection.insert_one({...})`). -/
structure StoredTxn where
  transaction_id : String
  timestamp : DateTime
  amount : ℚ
  location : String
  card_type : String
  currency : String
  recipient_account : String
  sender_account : String
  client_ip : String
  is_fraud : Bool
  fraud_reason : List String
deriving DecidableEq, Repr

/-- A document of the blacklist collection (`blacklist_collection.insert_one({...})`). -/
structure BlacklistEntry where
  type : String
  value : String
  reason : List String
  timestamp : DateTime
deriving DecidableEq, Repr

/-- The mutable state of the process: the two MongoDB collections (kept in
insertion order) and the in-memory dict `last_known_location` (kept as an
insertion-ordered association list, as a Python dict is). -/
structure SysState where
  blacklist : List BlacklistEntry
  history : List StoredTxn
  last_known_location : List (String × String)
deriving DecidableEq, Repr

/-- `location_lookup` from `src/main.py`: the static name → coordinates map. -/
def location_lookup : List (String × Coords) :=
  [("Chennai", ((130827 : ℚ)/10000, (802707 : ℚ)/10000)),
   ("Mumbai", ((190760 : ℚ)/10000, (728777 : ℚ)/10000)),
   ("Delhi", ((286139 : ℚ)/10000, (772090 : ℚ)/10000)),
   ("Bangalore", ((129716 : ℚ)/10000, (775946 : ℚ)/10000))]

/-- Dict lookup on an association list (`d.get(k)` / `d[k]`). -/
def dictGet (m : List (String × String)) (k : String) : Option String :=
  (m.find? (fun p => p.1 == k)).map Prod.snd

/-- Dict lookup in `location_lookup` (`location_lookup[name]`, guarded by
`name in location_lookup`). -/
def locGet (name : String) : Option Coords :=
  (location_lookup.find? (fun p => p.1 == name)).map Prod.snd

/-- Dict assignment `d[k] = v`: overwrite in place if the key is present,
append otherwise (Python dicts keep insertion order). -/
def dictSet (m : List (String × String)) (k v : String) : List (String × String) :=
  if m.any (fun p => p.1 == k) then m.map (fun p => if p.1 == k then (k, v) else p)
  else m ++ [(k, v)]

/-- `BLACKLISTED_IPS` from `src/main.py`. -/
def BLACKLISTED_IPS : List String := ["203.0.113.5", "198.51.100.10", "45.33.32.156"]

/-- `startup_blacklisted_accounts` from `src/main.py`. -/
def startup_blacklisted_accounts : List String := ["9876543210", "1111222233"]

/-- `blacklist_collection.find_one({"type": ty, "value": v})` is truthy. -/
def is_blacklisted (bl : List BlacklistEntry) (ty v : String) : Bool :=
  (bl.find? (fun e => e.type == ty && e.value == v)).isSome

/-- The insert-if-absent pattern used both at startup seeding and when
blacklisting accounts on a fraud verdict:
`if not blacklist_collection.find_one({...}): blacklist_collection.insert_one({...})`. -/
def add_if_absent (bl : List BlacklistEntry) (ty v : String) (reasons : List String)
    (ts : DateTime) : List BlacklistEntry :=
  if is_blacklisted bl ty v then bl
  else bl ++ [⟨ty, v, reasons, ts⟩]

/-- The startup seeding loop over `startup_blacklisted_accounts`
(`now` stands for the `datetime.now()` at process start). -/
def startup_seed (bl : List BlacklistEntry) (now : DateTime) : List BlacklistEntry :=
  startup_blacklisted_accounts.foldl
    (fun b acc => add_if_absent b "account" acc ["Predefined blacklist"] now) bl

/-- Python's negative-stop slice `lst[-w:]`: the last `w` elements, except
that `lst[-0:]` is the whole list. -/
def pyLastSlice (l : List α) (w : ℕ) : List α :=
  if w = 0 then l else l.drop (l.length - w)

/-- `np.mean`: the arithmetic mean (0 on the empty list, which the code never
asks for: it is only reached with at least 2 amounts). -/
def npMean (l : List ℚ) : ℚ := l.sum / l.length

/-- The population variance; `np.std l = Real.sqrt (npVar l)`. -/
def npVar (l : List ℚ) : ℚ := (l.map (fun a => (a - npMean l) ^ 2)).sum / l.length

/-- `np.std`: the population standard deviation (numpy's default `ddof=0`). -/
noncomputable def npStd (l : List ℚ) : ℝ := Real.sqrt (npVar l)

/-- `z_score = abs((current_amount - mean) / std) if std != 0 else 0`. -/
noncomputable def zScore (l : List ℚ) (current : ℚ) : ℝ :=
  if npStd l ≠ 0 then |((current : ℝ) - (npMean l : ℝ)) / npStd l| else 0

/-- `detect_behavioral_anomaly(past_txns, current_amount, window_size=5, z_thresh=2.5)`:
take the last `window_size` historical amounts, report no anomaly on fewer
than 2 amounts, otherwise flag iff the z-score exceeds the threshold. -/
def detect_behavioral_anomaly (past_txns : List StoredTxn) (current_amount : ℚ)
    (window_size : ℕ := 5) (z_thresh : ℚ := 5/2) : Prop :=
  let amounts := pyLastSlice (past_txns.map StoredTxn.amount) window_size
  if amounts.length < 2 then False
  else zScore amounts current_amount > (z_thresh : ℝ)

/-- A rational-arithmetic decision procedure for `detect_behavioral_anomaly`
(the square root is eliminated by squaring); proved equivalent below and used
only to decide the predicate on concrete inputs. -/
def anomalyTest (past_txns : List StoredTxn) (current_amount : ℚ)
    (window_size : ℕ := 5) (z_thresh : ℚ := 5/2) : Bool :=
  let amounts := pyLastSlice (past_txns.map StoredTxn.amount) window_size
  if amounts.length < 2 then false
  else if npVar amounts = 0 then decide (z_thresh < 0)
  else if z_thresh < 0 then true
  else decide (z_thresh ^ 2 * npVar amounts < (current_amount - npMean amounts) ^ 2)

theorem npVar_nonneg (l : List ℚ) : 0 ≤ npVar l := by
  have hs : 0 ≤ (l.map (fun a => (a - npMean l) ^ 2)).sum := by
    apply List.sum_nonneg
    intro x hx
    rcases List.mem_map.mp hx with ⟨a, _, rfl⟩
    positivity
  exact div_nonneg hs (by positivity)

theorem npStd_eq_zero_iff (l : List ℚ) : npStd l = 0 ↔ npVar l = 0 := by
  rw [npStd, Real.sqrt_eq_zero (by exact_mod_cast npVar_nonneg l)]
  exact_mod_cast Iff.rfl

theorem npStd_pos_of_var_ne (l : List ℚ) (h : npVar l ≠ 0) : 0 < npStd l := by
  rw [npStd]
  apply Real.sqrt_pos.mpr
  have := npVar_nonneg l
  have : (0 : ℚ) < npVar l := lt_of_le_of_ne this (Ne.symm h)
  exact_mod_cast this

theorem zScore_gt_iff (l : List ℚ) (c t : ℚ) :
    zScore l c > (t : ℝ) ↔
      (if npVar l = 0 then t < 0
       else if t < 0 then True
       else t ^ 2 * npVar l < (c - npMean l) ^ 2) := by
  by_cases hv : npVar l = 0
  · have hstd : npStd l = 0 := (npStd_eq_zero_iff l).mpr hv
    rw [zScore, if_neg (by simp [hstd]), if_pos hv]
    constructor
    · intro h
      exact_mod_cast h
    · intro h
      exact_mod_cast h
  · have hstd : 0 < npStd l := npStd_pos_of_var_ne l hv
    have hstd' : npStd l ≠ 0 := ne_of_gt hstd
    rw [zScore, if_pos hstd', if_neg hv]
    by_cases ht : t < 0
    · rw [if_pos ht]
      constructor
      · intro _; trivial
      · intro _
        calc (t : ℝ) < 0 := by exact_mod_cast ht
        _ ≤ |((c : ℝ) - (npMean l : ℝ)) / npStd l| := abs_nonneg _
    · rw [if_neg ht]
      push_neg at ht
      have ht' : (0 : ℝ) ≤ (t : ℝ) := by exact_mod_cast ht
      rw [abs_div, abs_of_pos hstd, gt_iff_lt, lt_div_iff₀ hstd]
      have hsq : npStd l ^ 2 = ((npVar l : ℚ) : ℝ) := by
        rw [npStd, Real.sq_sqrt (by exact_mod_cast npVar_nonneg l)]
      constructor
      · intro h
        have h2 : ((t : ℝ) * npStd l) ^ 2 < |((c : ℝ) - (npMean l : ℝ))| ^ 2 := by
          apply pow_lt_pow_left₀ h (by positivity)
          norm_num
        rw [mul_pow, hsq, sq_abs] at h2
        have h3 : ((t ^ 2 * npVar l : ℚ) : ℝ) < (((c - npMean l) ^ 2 : ℚ) : ℝ) := by
          push_cast
          convert h2 using 2
        exact_mod_cast h3
      · intro h
        have h3 : ((t ^ 2 * npVar l : ℚ) : ℝ) < (((c - npMean l) ^ 2 : ℚ) : ℝ) := by
          exact_mod_cast h
        have h2 : ((t : ℝ) * npStd l) ^ 2 < |((c : ℝ) - (npMean l : ℝ))| ^ 2 := by
          rw [mul_pow, hsq, sq_abs]
          push_cast at h3 ⊢
          convert h3 using 2
        have hab : 0 ≤ (t : ℝ) * npStd l := by positivity
        exact lt_of_pow_lt_pow_left₀ 2 (abs_nonneg _) h2

theorem detect_behavioral_anomaly_iff (past_txns : List StoredTxn) (c : ℚ) (w : ℕ) (t : ℚ) :
    detect_behavioral_anomaly past_txns c w t ↔ anomalyTest past_txns c w t = true := by
  rw [detect_behavioral_anomaly, anomalyTest]
  by_cases hl : (pyLastSlice (past_txns.map StoredTxn.amount) w).length < 2
  · simp [hl]
  · simp only [hl, if_false]
    rw [zScore_gt_iff]
    by_cases hv : npVar (pyLastSlice (past_txns.map StoredTxn.amount) w) = 0
    · simp [hv]
    · by_cases ht : t < 0 <;> simp [hv, ht]

instance (past_txns : List StoredTxn) (c : ℚ) (w : ℕ) (t : ℚ) :
    Decidable (detect_behavioral_anomaly past_txns c w t) :=
  decidable_of_iff (anomalyTest past_txns c w t = true)
    (detect_behavioral_anomaly_iff past_txns c w t).symm

/-- `detect_geo_drift(card_type, current_location, max_km=500)`, with the
`geopy` great-circle distance abstracted as `geo` and the global
`last_known_location` passed explicitly.  `if not last_location` is Python
falsiness: it holds for a missing key and for the empty string. -/
def detect_geo_drift (geo : Coords → Coords → ℚ) (lkl : List (String × String))
    (card_type current_location : String) (max_km : ℚ := 500) : Bool :=
  match locGet current_location with
  | none => false
  | some current_coords =>
    match dictGet lkl card_type with
    | none => false
    | some last_location =>
      if last_location == "" then false
      else
        match locGet last_location with
        | none => false
        | some last_coords => decide (geo last_coords current_coords > max_km)

/-- The reason string `f"Blacklisted IP Address: {client_ip}"`. -/
def reason_ip (client_ip : String) : String := "Blacklisted IP Address: " ++ client_ip

/-- The reason string `f"Blacklisted Recipient Account: {...}"`. -/
def reason_recipient (acc : String) : String := "Blacklisted Recipient Account: " ++ acc

/-- The reason string `f"Blacklisted Sender Account: {...}"`. -/
def reason_sender (acc : String) : String := "Blacklisted Sender Account: " ++ acc

/-- The odd-hours reason string. -/
def reason_odd : String := "Transaction During Odd Hours (12 AM - 4 AM)"

/-- The behavioral-anomaly reason string. -/
def reason_anomaly : String := "Abnormal Amount (Behavioral)"

/-- The geo-drift reason string. -/
def reason_geo : String := "Geo Drift Detected"

/-- `collection.find({"card_type": ct}).sort("timestamp", 1)`: the stored
transactions of that card type, in chronological order. -/
def query_by_card_type (history : List StoredTxn) (ct : String) : List StoredTxn :=
  (history.filter (fun t => t.card_type == ct)).insertionSort
    (fun a b => a.timestamp.key ≤ b.timestamp.key)

/-- The `POST /check_fraud` handler.  `parseTs` abstracts
`datetime.strptime(txn.timestamp, "%Y-%m-%d %H:%M:%S")` (`none` = the
`ValueError` on a malformed timestamp, raised before anything else happens, so
the whole evaluation returns `none` and the state is untouched); `geo`
abstracts the geodesic distance.  On success the result is the response
`{"fraud": is_fraud, "reasons": reasons}` paired with the updated state. -/
def check_fraud (parseTs : String → Option DateTime) (geo : Coords → Coords → ℚ)
    (txn : Transaction) (client_ip : String) (st : SysState) :
    Option (Bool × List String × SysState) :=
  match parseTs txn.timestamp with
  | none => none
  | some now =>
    let reasons0 : List String := []
    let fraud0 : Bool := false
    let reasons1 :=
      if BLACKLISTED_IPS.contains client_ip then reasons0 ++ [reason_ip client_ip]
      else reasons0
    let fraud1 := if BLACKLISTED_IPS.contains client_ip then true else fraud0
    let reasons2 :=
      if is_blacklisted st.blacklist "account" txn.recipient_account_number then
        reasons1 ++ [reason_recipient txn.recipient_account_number]
      else reasons1
    let fraud2 :=
      if is_blacklisted st.blacklist "account" txn.recipient_account_number then true
      else fraud1
    let reasons3 :=
      if is_blacklisted st.blacklist "account" txn.sender_account_number then
        reasons2 ++ [reason_sender txn.sender_account_number]
      else reasons2
    let fraud3 :=
      if is_blacklisted st.blacklist "account" txn.sender_account_number then true
      else fraud2
    let reasons4 :=
      if 0 ≤ now.hour ∧ now.hour < 4 then reasons3 ++ [reason_odd] else reasons3
    let fraud4 := if 0 ≤ now.hour ∧ now.hour < 4 then true else fraud3
    let past_txns := query_by_card_type st.history txn.card_type
    let reasons5 :=
      if detect_behavioral_anomaly past_txns txn.amount then reasons4 ++ [reason_anomaly]
      else reasons4
    let fraud5 :=
      if detect_behavioral_anomaly past_txns txn.amount then true else fraud4
    let reasons6 :=
      if detect_geo_drift geo st.last_known_location txn.card_type txn.location then
        reasons5 ++ [reason_geo]
      else reasons5
    let fraud6 :=
      if detect_geo_drift geo st.last_known_location txn.card_type txn.location then true
      else fraud5
    let lkl' :=
      if fraud6 then st.last_known_location
      else dictSet st.last_known_location txn.card_type txn.location
    let stored : StoredTxn :=
      ⟨txn.transaction_id, now, txn.amount, txn.location, txn.card_type, txn.currency,
       txn.recipient_account_number, txn.sender_account_number, client_ip, fraud6, reasons6⟩
    let history' := st.history ++ [stored]
    let blacklist' :=
      if fraud6 then
        [txn.recipient_account_number, txn.sender_account_number].foldl
          (fun bl acc => add_if_absent bl "account" acc reasons6 now) st.blacklist
      else st.blacklist
    some (fraud6, reasons6, ⟨blacklist', history', lkl'⟩)

/-! A closed-form characterization of `check_fraud`: the six detector
conditions, in evaluation order, as standalone predicates; then the verdict,
reason list and final state expressed directly in terms of them.
`check_fraud_eq` proves that `check_fraud` equals this closed form. -/

/-- Check (1): the client IP is in `BLACKLISTED_IPS`. -/
def firedIP (client_ip : String) : Bool := BLACKLISTED_IPS.contains client_ip

/-- Check (2): the recipient account is in the blacklist collection. -/
def firedRecipient (st : SysState) (txn : Transaction) : Bool :=
  is_blacklisted st.blacklist "account" txn.recipient_account_number

/-- Check (3): the sender account is in the blacklist collection. -/
def firedSender (st : SysState) (txn : Transaction) : Bool :=
  is_blacklisted st.blacklist "account" txn.sender_account_number

/-- Check (4): the hour of the parsed timestamp lies in `[0, 4)`. -/
def firedOdd (now : DateTime) : Bool := decide (0 ≤ now.hour ∧ now.hour < 4)

/-- Check (5): behavioral anomaly on the card's chronological history. -/
def firedAnomaly (st : SysState) (txn : Transaction) : Bool :=
  decide (detect_behavioral_anomaly (query_by_card_type st.history txn.card_type) txn.amount)

/-- Check (6): geo drift against the card's last known location. -/
def firedGeo (geo : Coords → Coords → ℚ) (st : SysState) (txn : Transaction) : Bool :=
  detect_geo_drift geo st.last_known_location txn.card_type txn.location

/-- The verdict: the logical OR of the six checks. -/
def cfVerdict (geo : Coords → Coords → ℚ) (txn : Transaction) (client_ip : String)
    (st : SysState) (now : DateTime) : Bool :=
  firedIP client_ip || firedRecipient st txn || firedSender st txn || firedOdd now ||
    firedAnomaly st txn || firedGeo geo st txn

/-- The reason list: each fired check contributes exactly its one reason
string, in evaluation order. -/
def cfReasons (geo : Coords → Coords → ℚ) (txn : Transaction) (client_ip : String)
    (st : SysState) (now : DateTime) : List String :=
  (if firedIP client_ip then [reason_ip client_ip] else []) ++
  (if firedRecipient st txn then [reason_recipient txn.recipient_account_number] else []) ++
  (if firedSender st txn then [reason_sender txn.sender_account_number] else []) ++
  (if firedOdd now then [reason_odd] else []) ++
  (if firedAnomaly st txn then [reason_anomaly] else []) ++
  (if firedGeo geo st txn then [reason_geo] else [])

/-- The document appended to the transaction collection. -/
def cfStoredTxn (geo : Coords → Coords → ℚ) (txn : Transaction) (client_ip : String)
    (st : SysState) (now : DateTime) : StoredTxn :=
  ⟨txn.transaction_id, now, txn.amount, txn.location, txn.card_type, txn.currency,
   txn.recipient_account_number, txn.sender_account_number, client_ip,
   cfVerdict geo txn client_ip st now, cfReasons geo txn client_ip st now⟩

/-- The final `last_known_location`: written only on a non-fraud verdict. -/
def cfLKL (geo : Coords → Coords → ℚ) (txn : Transaction) (client_ip : String)
    (st : SysState) (now : DateTime) : List (String × String) :=
  if cfVerdict geo txn client_ip st now then st.last_known_location
  else dictSet st.last_known_location txn.card_type txn.location

/-- The final blacklist: on a fraud verdict, recipient then sender are added
if absent, with the full reason list. -/
def cfBlacklist (geo : Coords → Coords → ℚ) (txn : Transaction) (client_ip : String)
    (st : SysState) (now : DateTime) : List BlacklistEntry :=
  if cfVerdict geo txn client_ip st now then
    add_if_absent
      (add_if_absent st.blacklist "account" txn.recipient_account_number
        (cfReasons geo txn client_ip st now) now)
      "account" txn.sender_account_number (cfReasons geo txn client_ip st now) now
  else st.blacklist

theorem check_fraud_eq (parseTs : String → Option DateTime) (geo : Coords → Coords → ℚ)
    (txn : Transaction) (client_ip : String) (st : SysState) (now : DateTime)
    (hp : parseTs txn.timestamp = some now) :
    check_fraud parseTs geo txn client_ip st =
      some (cfVerdict geo txn client_ip st now,
            cfReasons geo txn client_ip st now,
            ⟨cfBlacklist geo txn client_ip st now,
             st.history ++ [cfStoredTxn geo txn client_ip st now],
             cfLKL geo txn client_ip st now⟩) := by
  simp only [check_fraud, hp, cfVerdict, cfReasons, cfBlacklist, cfLKL, cfStoredTxn,
    firedIP, firedRecipient, firedSender, firedOdd, firedAnomaly, firedGeo,
    List.foldl_cons, List.foldl_nil]
  by_cases h1 : BLACKLISTED_IPS.contains client_ip = true <;>
    by_cases h2 : is_blacklisted st.blacklist "account" txn.recipient_account_number = true <;>
    by_cases h3 : is_blacklisted st.blacklist "account" txn.sender_account_number = true <;>
    by_cases h4 : now.hour < 4 <;>
    by_cases h5 :
      detect_behavioral_anomaly (query_by_card_type st.history txn.card_type) txn.amount <;>
    by_cases h6 :
      detect_geo_drift geo st.last_known_location txn.card_type txn.location = true <;>
    simp_all [-Nat.not_lt, -not_lt]

/-! Helper lemmas: distinctness of reason strings, membership of the odd-hours
reason, dictionary update laws, statistics of constant windows, and counting
laws for `add_if_absent`. -/

theorem append_ne_of_head_ne (p s t : String) (c d : Char)
    (hp : p.data.head? = some c) (ht : t.data.head? = some d) (hcd : c ≠ d) :
    p ++ s ≠ t := by
  intro h
  have hdata : p.data ++ s.data = t.data := by
    have h2 := congrArg String.data h
    rwa [String.data_append] at h2
  cases hpd : p.data with
  | nil => rw [hpd] at hp; simp at hp
  | cons a l =>
    rw [hpd] at hdata hp
    simp only [Option.some.injEq, List.head?_cons] at hp
    cases htd : t.data with
    | nil => rw [htd] at ht; simp at ht
    | cons b m =>
      rw [htd] at hdata ht
      simp only [Option.some.injEq, List.head?_cons] at ht
      rw [List.cons_append] at hdata
      injection hdata with h1 _
      exact hcd (hp ▸ ht ▸ h1)

theorem reason_odd_ne_ip (client_ip : String) : reason_odd ≠ reason_ip client_ip := by
  intro h
  exact append_ne_of_head_ne "Blacklisted IP Address: " client_ip reason_odd 'B' 'T'
    (by decide) (by decide) (by decide) h.symm

theorem reason_odd_ne_recipient (acc : String) : reason_odd ≠ reason_recipient acc := by
  intro h
  exact append_ne_of_head_ne "Blacklisted Recipient Account: " acc reason_odd 'B' 'T'
    (by decide) (by decide) (by decide) h.symm

theorem reason_odd_ne_sender (acc : String) : reason_odd ≠ reason_sender acc := by
  intro h
  exact append_ne_of_head_ne "Blacklisted Sender Account: " acc reason_odd 'B' 'T'
    (by decide) (by decide) (by decide) h.symm

theorem reason_odd_mem_cfReasons (geo : Coords → Coords → ℚ) (txn : Transaction)
    (client_ip : String) (st : SysState) (now : DateTime) :
    reason_odd ∈ cfReasons geo txn client_ip st now ↔ firedOdd now = true := by
  rw [cfReasons]
  constructor
  · intro h
    simp only [List.mem_append] at h
    rcases h with ((((h | h) | h) | h) | h) | h
    · revert h; split <;> simp [reason_odd_ne_ip]
    · revert h; split <;> simp [reason_odd_ne_recipient]
    · revert h; split <;> simp [reason_odd_ne_sender]
    · revert h; split <;> simp_all
    · revert h; split <;> simp [show reason_odd ≠ reason_anomaly by decide]
    · revert h; split <;> simp [show reason_odd ≠ reason_geo by decide]
  · intro h
    simp [h]

theorem dictGet_cons (a b : String) (m : List (String × String)) (k : String) :
    dictGet ((a, b) :: m) k = if (a == k) = true then some b else dictGet m k := by
  by_cases h : (a == k) = true
  · simp [dictGet, List.find?_cons, h]
  · simp [dictGet, List.find?_cons, h]

theorem dictGet_map_update (m : List (String × String)) (k v : String)
    (h : m.any (fun p => p.1 == k) = true) :
    dictGet (m.map (fun p => if p.1 == k then (k, v) else p)) k = some v := by
  induction m with
  | nil => simp at h
  | cons p m ih =>
    rcases p with ⟨a, b⟩
    by_cases hp : (a == k) = true
    · simp only [List.map_cons]
      have hred : (if ((a, b).1 == k) = true then (k, v) else (a, b)) = (k, v) := by
        simp [hp]
      rw [hred, dictGet_cons, if_pos (by simp)]
    · simp only [List.map_cons]
      have hred : (if ((a, b).1 == k) = true then (k, v) else (a, b)) = (a, b) := by
        simp [hp]
      rw [hred, dictGet_cons, if_neg hp]
      apply ih
      simpa [hp] using h

theorem dictGet_append_single (m : List (String × String)) (k v : String)
    (h : dictGet m k = none) :
    dictGet (m ++ [(k, v)]) k = some v := by
  induction m with
  | nil => rw [List.nil_append, dictGet_cons, if_pos (by simp)]
  | cons p m ih =>
    rcases p with ⟨a, b⟩
    rw [dictGet_cons] at h
    rw [List.cons_append, dictGet_cons]
    by_cases hp : (a == k) = true
    · rw [if_pos hp] at h; exact absurd h (by simp)
    · rw [if_neg hp] at h
      rw [if_neg hp]
      exact ih h

theorem dictGet_none_of_any_eq_false (m : List (String × String)) (k : String)
    (h : m.any (fun p => p.1 == k) = false) :
    dictGet m k = none := by
  induction m with
  | nil => rfl
  | cons p m ih =>
    rcases p with ⟨a, b⟩
    simp only [List.any_cons, Bool.or_eq_false_iff] at h
    rw [dictGet_cons, if_neg (by simp [h.1])]
    exact ih h.2

theorem dictGet_dictSet_self (m : List (String × String)) (k v : String) :
    dictGet (dictSet m k v) k = some v := by
  rw [dictSet]
  by_cases h : m.any (fun p => p.1 == k) = true
  · rw [if_pos h]
    exact dictGet_map_update m k v h
  · rw [if_neg h]
    exact dictGet_append_single m k v
      (dictGet_none_of_any_eq_false m k (Bool.eq_false_iff.mpr h))

theorem dictGet_map_update_ne (m : List (String × String)) (k v c : String)
    (hkc : (k == c) = false) :
    dictGet (m.map (fun p => if p.1 == k then (k, v) else p)) c = dictGet m c := by
  induction m with
  | nil => rfl
  | cons p m ih =>
    rcases p with ⟨a, b⟩
    simp only [List.map_cons]
    by_cases hp : (a == k) = true
    · have ha : a = k := by simpa using hp
      have hred : (if ((a, b).1 == k) = true then (k, v) else (a, b)) = (k, v) := by
        simp [hp]
      rw [hred, dictGet_cons, dictGet_cons, if_neg (by simp [hkc]),
        if_neg (by simp [ha, hkc])]
      exact ih
    · have hred : (if ((a, b).1 == k) = true then (k, v) else (a, b)) = (a, b) := by
        simp [hp]
      rw [hred, dictGet_cons, dictGet_cons]
      by_cases hac : (a == c) = true
      · rw [if_pos hac, if_pos hac]
      · rw [if_neg hac, if_neg hac]
        exact ih

theorem dictGet_append_single_ne (m : List (String × String)) (k v c : String)
    (hkc : (k == c) = false) :
    dictGet (m ++ [(k, v)]) c = dictGet m c := by
  induction m with
  | nil => rw [List.nil_append, dictGet_cons, if_neg (by simp [hkc])]
  | cons p m ih =>
    rcases p with ⟨a, b⟩
    rw [List.cons_append, dictGet_cons, dictGet_cons]
    by_cases hac : (a == c) = true
    · rw [if_pos hac, if_pos hac]
    · rw [if_neg hac, if_neg hac]
      exact ih

theorem dictGet_dictSet_ne (m : List (String × String)) (k v c : String) (hck : c ≠ k) :
    dictGet (dictSet m k v) c = dictGet m c := by
  have hkc : (k == c) = false := by
    simp only [beq_eq_false_iff_ne, ne_eq]
    exact fun h => hck h.symm
  rw [dictSet]
  by_cases h : m.any (fun p => p.1 == k) = true
  · rw [if_pos h]
    exact dictGet_map_update_ne m k v c hkc
  · rw [if_neg h]
    exact dictGet_append_single_ne m k v c hkc

theorem npMean_const (l : List ℚ) (x : ℚ) (hl : l ≠ []) (h : ∀ a ∈ l, a = x) :
    npMean l = x := by
  have hlen : (l.length : ℚ) ≠ 0 := by
    simp [List.length_eq_zero, hl]
  rw [npMean, List.sum_eq_card_nsmul l x h, nsmul_eq_mul, mul_comm,
    mul_div_assoc, div_self hlen, mul_one]

theorem npVar_const (l : List ℚ) (x : ℚ) (h : ∀ a ∈ l, a = x) : npVar l = 0 := by
  rcases eq_or_ne l [] with rfl | hl
  · simp [npVar]
  · rw [npVar]
    have hm := npMean_const l x hl h
    have hmap : l.map (fun a => (a - npMean l) ^ 2) = l.map (fun _ => 0) := by
      apply List.map_congr_left
      intro a ha
      rw [h a ha, hm]
      ring
    rw [hmap]
    simp

theorem countP_entry_true (ty v : String) (rs : List String) (ts : DateTime) :
    (fun e : BlacklistEntry => e.type == ty && e.value == v) ⟨ty, v, rs, ts⟩ = true := by
  simp

theorem is_blacklisted_eq_false_of_countP (bl : List BlacklistEntry) (ty v : String)
    (h : bl.countP (fun e => e.type == ty && e.value == v) = 0) :
    is_blacklisted bl ty v = false := by
  have hnone : bl.find? (fun e => e.type == ty && e.value == v) = none := by
    rw [List.find?_eq_none]
    intro e he
    simpa using (List.countP_eq_zero.mp h) e he
  rw [is_blacklisted, hnone]
  rfl

theorem is_blacklisted_append_self (bl : List BlacklistEntry) (ty v : String)
    (rs : List String) (ts : DateTime) :
    is_blacklisted (bl ++ [⟨ty, v, rs, ts⟩]) ty v = true := by
  simp only [is_blacklisted, List.find?_isSome]
  exact ⟨⟨ty, v, rs, ts⟩, by simp, by simp⟩

theorem add_if_absent_of_present (bl : List BlacklistEntry) (ty v : String)
    (rs : List String) (ts : DateTime) (h : is_blacklisted bl ty v = true) :
    add_if_absent bl ty v rs ts = bl := by
  rw [add_if_absent, if_pos h]

theorem add_if_absent_of_absent (bl : List BlacklistEntry) (ty v : String)
    (rs : List String) (ts : DateTime) (h : is_blacklisted bl ty v = false) :
    add_if_absent bl ty v rs ts = bl ++ [⟨ty, v, rs, ts⟩] := by
  rw [add_if_absent, if_neg (by simp [h])]

theorem cfVerdict_true_iff_cfReasons_ne_nil (geo : Coords → Coords → ℚ)
    (txn : Transaction) (client_ip : String) (st : SysState) (now : DateTime) :
    cfVerdict geo txn client_ip st now = true ↔
      cfReasons geo txn client_ip st now ≠ [] := by
  rw [cfVerdict, cfReasons]
  cases h1 : firedIP client_ip <;> cases h2 : firedRecipient st txn <;>
    cases h3 : firedSender st txn <;> cases h4 : firedOdd now <;>
    cases h5 : firedAnomaly st txn <;> cases h6 : firedGeo geo st txn <;> simp

/-! Concrete fixtures used by the witnesses and the numeric claims. -/

/-- The parsed form of the fixture timestamp `"2025-08-07 02:55:00"`. -/
def dtFix : DateTime := ⟨2025, 8, 7, 2, 55, 0⟩

/-- A concrete stand-in for `datetime.strptime(·, "%Y-%m-%d %H:%M:%S")`
supporting the fixture timestamp. -/
def ptFix : String → Option DateTime := fun s =>
  if s = "2025-08-07 02:55:00" then some dtFix else none

/-- A concrete stand-in for the geodesic distance (km), constant 1754. -/
def geoFix : Coords → Coords → ℚ := fun _ _ => 1754

/-- A fixture request: blacklisted recipient account, hour 2 (odd hours). -/
def txnFix : Transaction :=
  ⟨"t1", "2025-08-07 02:55:00", 100, "Chennai", "visa", "INR", "9876543210", "555"⟩

/-- The fixture state: seeded blacklist, no history, no known locations. -/
def stFix : SysState := ⟨startup_seed [] ⟨2025, 1, 1, 0, 0, 0⟩, [], []⟩

/-- The result of the fixture evaluation (a fraud verdict: blacklisted IP,
blacklisted recipient and odd hours all fire). -/
def outFix : Bool × List String × SysState :=
  (check_fraud ptFix geoFix txnFix "203.0.113.5" stFix).getD (false, [], stFix)

/-- A stored transaction with the given minute and amount, on card `visa`. -/
def mkTxn (i : ℕ) (amt : ℚ) : StoredTxn :=
  ⟨"t", ⟨2025, 8, 1, 10, i, 0⟩, amt, "Chennai", "visa", "INR", "r", "s", "1.2.3.4",
   false, []⟩

/-- The history of the spec's numeric example: amounts `[10,20,10,20,10]`. -/
def histC4 : List StoredTxn := [mkTxn 1 10, mkTxn 2 20, mkTxn 3 10, mkTxn 4 20, mkTxn 5 10]

/-- A constant history: five transactions of amount 100. -/
def histConst : List StoredTxn :=
  [mkTxn 1 100, mkTxn 2 100, mkTxn 3 100, mkTxn 4 100, mkTxn 5 100]

/-! The claims. -/

/-- C1: the fraud check evaluates all six detectors on every transaction in
the fixed order client-IP blacklist, recipient-account blacklist,
sender-account blacklist, odd-hour check, behavioral anomaly, geo drift, with
no early exit; each fired check appends exactly one reason string in that
order (`cfReasons` is the ordered concatenation of the six one-element
contributions), and the returned verdict is the logical OR of the fired
checks (`cfVerdict`). -/
theorem C1_order_and_or_verdict (parseTs : String → Option DateTime)
    (geo : Coords → Coords → ℚ) (txn : Transaction) (client_ip : String)
    (st st' : SysState) (now : DateTime) (v : Bool) (rs : List String)
    (hp : parseTs txn.timestamp = some now)
    (hc : check_fraud parseTs geo txn client_ip st = some (v, rs, st')) :
    v = (firedIP client_ip || firedRecipient st txn || firedSender st txn ||
         firedOdd now || firedAnomaly st txn || firedGeo geo st txn) ∧
      rs = (if firedIP client_ip then [reason_ip client_ip] else []) ++
        (if firedRecipient st txn then
          [reason_recipient txn.recipient_account_number] else []) ++
        (if firedSender st txn then [reason_sender txn.sender_account_number] else []) ++
        (if firedOdd now then [reason_odd] else []) ++
        (if firedAnomaly st txn then [reason_anomaly] else []) ++
        (if firedGeo geo st txn then [reason_geo] else []) := by
  have h := (check_fraud_eq parseTs geo txn client_ip st now hp).symm.trans hc
  rw [Option.some.injEq, Prod.mk.injEq, Prod.mk.injEq] at h
  exact ⟨h.1.symm, h.2.1.symm⟩

theorem C1_order_and_or_verdict_witness :
    outFix.1 = (firedIP "203.0.113.5" || firedRecipient stFix txnFix ||
         firedSender stFix txnFix || firedOdd dtFix || firedAnomaly stFix txnFix ||
         firedGeo geoFix stFix txnFix) ∧
      outFix.2.1 = (if firedIP "203.0.113.5" then [reason_ip "203.0.113.5"] else []) ++
        (if firedRecipient stFix txnFix then
          [reason_recipient txnFix.recipient_account_number] else []) ++
        (if firedSender stFix txnFix then
          [reason_sender txnFix.sender_account_number] else []) ++
        (if firedOdd dtFix then [reason_odd] else []) ++
        (if firedAnomaly stFix txnFix then [reason_anomaly] else []) ++
        (if firedGeo geoFix stFix txnFix then [reason_geo] else []) :=
  C1_order_and_or_verdict ptFix geoFix txnFix "203.0.113.5" stFix outFix.2.2 dtFix
    outFix.1 outFix.2.1 rfl rfl

/-- C9: for every request whose timestamp the (abstracted) parser rejects,
the fraud check fails before any detector runs and produces no new state:
`check_fraud` returns `none`, so neither the transaction history, nor the
blacklist, nor `last_known_location` is mutated. -/
theorem C9_malformed_timestamp_no_effect (parseTs : String → Option DateTime)
    (geo : Coords → Coords → ℚ) (txn : Transaction) (client_ip : String)
    (st : SysState) (hp : parseTs txn.timestamp = none) :
    check_fraud parseTs geo txn client_ip st = none := by
  rw [check_fraud, hp]

theorem C9_malformed_timestamp_no_effect_witness :
    check_fraud (fun _ => none) geoFix txnFix "1.2.3.4" stFix = none :=
  C9_malformed_timestamp_no_effect (fun _ => none) geoFix txnFix "1.2.3.4" stFix rfl

/-- C10: for every successfully evaluated transaction, the returned fraud
flag is true if and only if the returned reasons list is non-empty, and the
`StoredTxn` appended to the history records exactly this verdict in
`is_fraud` and exactly this reasons list in `fraud_reason`. -/
theorem C10_flag_iff_reasons_and_stored (parseTs : String → Option DateTime)
    (geo : Coords → Coords → ℚ) (txn : Transaction) (client_ip : String)
    (st st' : SysState) (now : DateTime) (v : Bool) (rs : List String)
    (hp : parseTs txn.timestamp = some now)
    (hc : check_fraud parseTs geo txn client_ip st = some (v, rs, st')) :
    (v = true ↔ rs ≠ []) ∧
      st'.history = st.history ++
        [⟨txn.transaction_id, now, txn.amount, txn.location, txn.card_type,
          txn.currency, txn.recipient_account_number, txn.sender_account_number,
          client_ip, v, rs⟩] := by
  have h := (check_fraud_eq parseTs geo txn client_ip st now hp).symm.trans hc
  rw [Option.some.injEq, Prod.mk.injEq, Prod.mk.injEq] at h
  obtain ⟨hv, hrs, hst⟩ := h
  constructor
  · rw [← hv, ← hrs]
    exact cfVerdict_true_iff_cfReasons_ne_nil geo txn client_ip st now
  · rw [← hst]
    simp only [cfStoredTxn, hv, hrs]

theorem C10_flag_iff_reasons_and_stored_witness :
    (outFix.1 = true ↔ outFix.2.1 ≠ []) ∧
      outFix.2.2.history = stFix.history ++
        [⟨txnFix.transaction_id, dtFix, txnFix.amount, txnFix.location,
          txnFix.card_type, txnFix.currency, txnFix.recipient_account_number,
          txnFix.sender_account_number, "203.0.113.5", outFix.1, outFix.2.1⟩] :=
  C10_flag_iff_reasons_and_stored ptFix geoFix txnFix "203.0.113.5" stFix outFix.2.2
    dtFix outFix.1 outFix.2.1 rfl rfl

/-- C5: the odd-hour check fires exactly when the parsed timestamp's
hour-of-day lies in `[0, 4)` (so hour 2 flags, hours 4 and 23 do not — the
bound is exclusive at 4), and when it fires the reason
`"Transaction During Odd Hours (12 AM - 4 AM)"` (and only then) appears in
the returned reasons. -/
theorem C5_odd_hour_window (parseTs : String → Option DateTime)
    (geo : Coords → Coords → ℚ) (txn : Transaction) (client_ip : String)
    (st st' : SysState) (now : DateTime) (v : Bool) (rs : List String)
    (hp : parseTs txn.timestamp = some now)
    (hc : check_fraud parseTs geo txn client_ip st = some (v, rs, st')) :
    reason_odd ∈ rs ↔ (0 ≤ now.hour ∧ now.hour < 4) := by
  have h := (check_fraud_eq parseTs geo txn client_ip st now hp).symm.trans hc
  rw [Option.some.injEq, Prod.mk.injEq, Prod.mk.injEq] at h
  rw [← h.2.1, reason_odd_mem_cfReasons, firedOdd]
  simp

theorem C5_odd_hour_window_witness :
    reason_odd ∈ outFix.2.1 ↔ (0 ≤ dtFix.hour ∧ dtFix.hour < 4) :=
  C5_odd_hour_window ptFix geoFix txnFix "203.0.113.5" stFix outFix.2.2 dtFix
    outFix.1 outFix.2.1 rfl rfl

/-- C7: after every evaluation, `last_known_location` at the transaction's
`card_type` is updated to the transaction's location exactly when the verdict
is non-fraud, every other key is unchanged, and a fraudulent transaction
leaves the whole `last_known_location` map unchanged. -/
theorem C7_last_location_update (parseTs : String → Option DateTime)
    (geo : Coords → Coords → ℚ) (txn : Transaction) (client_ip : String)
    (st st' : SysState) (now : DateTime) (v : Bool) (rs : List String)
    (hp : parseTs txn.timestamp = some now)
    (hc : check_fraud parseTs geo txn client_ip st = some (v, rs, st')) :
    (v = true → st'.last_known_location = st.last_known_location) ∧
      (v = false → st'.last_known_location =
        dictSet st.last_known_location txn.card_type txn.location) ∧
      ∀ c, dictGet st'.last_known_location c =
        if v = false ∧ c = txn.card_type then some txn.location
        else dictGet st.last_known_location c := by
  have h := (check_fraud_eq parseTs geo txn client_ip st now hp).symm.trans hc
  rw [Option.some.injEq, Prod.mk.injEq, Prod.mk.injEq] at h
  obtain ⟨hv, -, hst⟩ := h
  have hlkl : st'.last_known_location = cfLKL geo txn client_ip st now := by
    rw [← hst]
  rw [hlkl, cfLKL, hv]
  cases v with
  | true =>
    refine ⟨fun _ => by simp, fun hf => by simp at hf, fun c => by simp⟩
  | false =>
    refine ⟨fun ht => by simp at ht, fun _ => by simp, fun c => ?_⟩
    have hif : (if (false : Bool) then st.last_known_location
        else dictSet st.last_known_location txn.card_type txn.location) =
        dictSet st.last_known_location txn.card_type txn.location := by simp
    rw [hif]
    by_cases hck : c = txn.card_type
    · subst hck
      rw [dictGet_dictSet_self, if_pos ⟨rfl, rfl⟩]
    · rw [dictGet_dictSet_ne st.last_known_location txn.card_type txn.location c hck,
        if_neg (by simp [hck])]

theorem C7_last_location_update_witness :
    (outFix.1 = true → outFix.2.2.last_known_location = stFix.last_known_location) ∧
      (outFix.1 = false → outFix.2.2.last_known_location =
        dictSet stFix.last_known_location txnFix.card_type txnFix.location) ∧
      ∀ c, dictGet outFix.2.2.last_known_location c =
        if outFix.1 = false ∧ c = txnFix.card_type then some txnFix.location
        else dictGet stFix.last_known_location c :=
  C7_last_location_update ptFix geoFix txnFix "203.0.113.5" stFix outFix.2.2 dtFix
    outFix.1 outFix.2.1 rfl rfl

/-- C2: for every card history whose amount window (the final
`window_size`-slice of the historical amounts) contains fewer than 2 amounts,
`detect_behavioral_anomaly` reports no anomaly, for every current amount,
window size, and threshold. -/
theorem C2_insufficient_data_no_anomaly (past_txns : List StoredTxn)
    (current_amount : ℚ) (window_size : ℕ) (z_thresh : ℚ)
    (h : (pyLastSlice (past_txns.map StoredTxn.amount) window_size).length < 2) :
    ¬ detect_behavioral_anomaly past_txns current_amount window_size z_thresh := by
  intro hd
  rw [detect_behavioral_anomaly] at hd
  rw [if_pos h] at hd
  exact hd

theorem C2_insufficient_data_no_anomaly_witness :
    ((pyLastSlice ([mkTxn 1 10].map StoredTxn.amount) 5).length < 2) ∧
      ¬ detect_behavioral_anomaly [mkTxn 1 10] 1000000 5 (5/2) :=
  ⟨by decide, C2_insufficient_data_no_anomaly [mkTxn 1 10] 1000000 5 (5/2) (by decide)⟩

/-- C3: for every window of at least 2 amounts with zero variance (all
amounts equal), the z-score is defined as 0 and `detect_behavioral_anomaly`
(default threshold 2.5) reports no anomaly, for every current amount, however
far it differs from the window's amounts. -/
theorem C3_zero_variance_no_anomaly (past_txns : List StoredTxn)
    (current_amount : ℚ) (window_size : ℕ) (x : ℚ)
    (hlen : ¬ (pyLastSlice (past_txns.map StoredTxn.amount) window_size).length < 2)
    (hall : ∀ a ∈ pyLastSlice (past_txns.map StoredTxn.amount) window_size, a = x) :
    zScore (pyLastSlice (past_txns.map StoredTxn.amount) window_size) current_amount = 0 ∧
      ¬ detect_behavioral_anomaly past_txns current_amount window_size := by
  have hvar := npVar_const (pyLastSlice (past_txns.map StoredTxn.amount) window_size) x hall
  have hstd := (npStd_eq_zero_iff
    (pyLastSlice (past_txns.map StoredTxn.amount) window_size)).mpr hvar
  have hz : zScore (pyLastSlice (past_txns.map StoredTxn.amount) window_size)
      current_amount = 0 := by
    rw [zScore, if_neg (by simp [hstd])]
  refine ⟨hz, fun hd => ?_⟩
  rw [detect_behavioral_anomaly] at hd
  rw [if_neg hlen] at hd
  rw [hz] at hd
  norm_num at hd

theorem C3_zero_variance_no_anomaly_witness :
    (¬ (pyLastSlice (histConst.map StoredTxn.amount) 5).length < 2) ∧
      (∀ a ∈ pyLastSlice (histConst.map StoredTxn.amount) 5, a = (100 : ℚ)) ∧
      (zScore (pyLastSlice (histConst.map StoredTxn.amount) 5) 1000000 = 0 ∧
        ¬ detect_behavioral_anomaly histConst 1000000 5) :=
  ⟨by decide, by decide,
    C3_zero_variance_no_anomaly histConst 1000000 5 100 (by decide) (by decide)⟩

/-- C6: for every transaction whose current location name is absent from
`location_lookup`, `detect_geo_drift` reports no drift, regardless of the
card's last-known location; likewise it reports no drift when no last-known
location exists for the card or the last-known location name is absent from
`location_lookup`. -/
theorem C6_unknown_location_no_drift (geo : Coords → Coords → ℚ)
    (lkl : List (String × String)) (card_type current_location : String) (max_km : ℚ)
    (h : locGet current_location = none ∨ dictGet lkl card_type = none ∨
      ∀ s, dictGet lkl card_type = some s → locGet s = none) :
    detect_geo_drift geo lkl card_type current_location max_km = false := by
  rcases h with h | h | h
  · simp only [detect_geo_drift, h]
  · rcases hcur : locGet current_location with _ | cc
    · simp only [detect_geo_drift, hcur]
    · simp only [detect_geo_drift, hcur, h]
  · rcases hcur : locGet current_location with _ | cc
    · simp only [detect_geo_drift, hcur]
    · rcases hl : dictGet lkl card_type with _ | s
      · simp only [detect_geo_drift, hcur, hl]
      · have hs := h s hl
        simp only [detect_geo_drift, hcur, hl, hs, ite_self]

theorem C6_unknown_location_no_drift_witness :
    detect_geo_drift geoFix [("visa", "Chennai")] "visa" "Paris" 500 = false :=
  C6_unknown_location_no_drift geoFix [("visa", "Chennai")] "visa" "Paris" 500
    (Or.inl rfl)

/-- C8: the blacklist holds at most one entry per distinct account value:
calling `add_if_absent` twice with the same `(type, value)` — the pattern
used both at startup seeding and when blacklisting accounts on a fraud
verdict — leaves the second call a no-op (its reasons are discarded), and
starting from a blacklist with no entry for that value the two calls produce
exactly one stored entry, carrying the first call's reasons. -/
theorem C8_add_if_absent_idempotent (bl : List BlacklistEntry) (ty v : String)
    (rs1 rs2 : List String) (t1 t2 : DateTime)
    (h : bl.countP (fun e => e.type == ty && e.value == v) = 0) :
    add_if_absent (add_if_absent bl ty v rs1 t1) ty v rs2 t2 =
        add_if_absent bl ty v rs1 t1 ∧
      (add_if_absent bl ty v rs1 t1).countP
        (fun e => e.type == ty && e.value == v) = 1 ∧
      ∀ e ∈ add_if_absent bl ty v rs1 t1,
        (e.type == ty && e.value == v) = true → e.reason = rs1 := by
  have habs := is_blacklisted_eq_false_of_countP bl ty v h
  have h1 : add_if_absent bl ty v rs1 t1 = bl ++ [⟨ty, v, rs1, t1⟩] :=
    add_if_absent_of_absent bl ty v rs1 t1 habs
  refine ⟨?_, ?_, ?_⟩
  · rw [h1]
    exact add_if_absent_of_present _ ty v rs2 t2 (is_blacklisted_append_self bl ty v rs1 t1)
  · rw [h1, List.countP_append, h, List.countP_cons, List.countP_nil]
    simp
  · rw [h1]
    intro e he hpe
    rcases List.mem_append.mp he with hin | hin
    · exact absurd hpe (by simpa using (List.countP_eq_zero.mp h) e hin)
    · rw [List.mem_singleton.mp hin]

theorem C8_add_if_absent_idempotent_witness :
    (([] : List BlacklistEntry).countP
        (fun e => e.type == "account" && e.value == "777") = 0) ∧
      (add_if_absent (add_if_absent [] "account" "777" ["first"] dtFix)
            "account" "777" ["second"] dtFix =
          add_if_absent [] "account" "777" ["first"] dtFix ∧
        (add_if_absent [] "account" "777" ["first"] dtFix).countP
          (fun e => e.type == "account" && e.value == "777") = 1 ∧
        ∀ e ∈ add_if_absent [] "account" "777" ["first"] dtFix,
          (e.type == "account" && e.value == "777") = true → e.reason = ["first"]) :=
  ⟨rfl, C8_add_if_absent_idempotent [] "account" "777" ["first"] ["second"]
    dtFix dtFix rfl⟩

theorem npVar_histC4 : npVar (pyLastSlice (histC4.map StoredTxn.amount) 5) = 24 := by
  norm_num [npVar, npMean, pyLastSlice, histC4, mkTxn]

/-- C4 counterexample: on the history `[10,20,10,20,10]` with current amount
200 the code's population standard deviation is `√24 ≈ 4.899`, not 5, and the
z-score is `186/√24 ≈ 37.96`, not `37.2 = 186/5`, so the claimed triple
(mean 14, σ = 5, z = 37.2) is false. -/
theorem C4_spec_values_counterexample :
    ¬ (npMean (pyLastSlice (histC4.map StoredTxn.amount) 5) = 14 ∧
       npStd (pyLastSlice (histC4.map StoredTxn.amount) 5) = 5 ∧
       zScore (pyLastSlice (histC4.map StoredTxn.amount) 5) 200 = 186/5) := by
  rintro ⟨-, hstd, -⟩
  rw [npStd, npVar_histC4] at hstd
  have h24 : (((24 : ℚ)) : ℝ) = 24 := by norm_num
  rw [h24] at hstd
  have hsq := congrArg (fun y : ℝ => y ^ 2) hstd
  simp only [Real.sq_sqrt (by norm_num : (0:ℝ) ≤ 24)] at hsq
  norm_num at hsq

/-- C4 (amended): for the history `[10,20,10,20,10]` and current amount 200,
`detect_behavioral_anomaly` computes mean 14 and population standard
deviation `√24 ≈ 4.899`, yielding z-score `186/√24 ≈ 37.96`, and flags an
anomaly (z > 2.5). -/
theorem C4_behavioral_anomaly_example :
    npMean (pyLastSlice (histC4.map StoredTxn.amount) 5) = 14 ∧
      npStd (pyLastSlice (histC4.map StoredTxn.amount) 5) = Real.sqrt 24 ∧
      zScore (pyLastSlice (histC4.map StoredTxn.amount) 5) 200 = 186 / Real.sqrt 24 ∧
      detect_behavioral_anomaly histC4 200 := by
  have hmean : npMean (pyLastSlice (histC4.map StoredTxn.amount) 5) = 14 := by
    norm_num [npMean, pyLastSlice, histC4, mkTxn]
  have hstd : npStd (pyLastSlice (histC4.map StoredTxn.amount) 5) = Real.sqrt 24 := by
    rw [npStd, npVar_histC4]
    norm_num
  have hpos : (0 : ℝ) < Real.sqrt 24 := Real.sqrt_pos.mpr (by norm_num)
  have hz : zScore (pyLastSlice (histC4.map StoredTxn.amount) 5) 200 =
      186 / Real.sqrt 24 := by
    rw [zScore, if_pos (by rw [hstd]; exact ne_of_gt hpos), hstd, hmean]
    rw [abs_of_nonneg (by positivity)]
    norm_num
  refine ⟨hmean, hstd, hz, ?_⟩
  rw [detect_behavioral_anomaly_iff]
  norm_num [anomalyTest, npVar, npMean, pyLastSlice, histC4, mkTxn]
